import Mathlib

/-!
Shallow embedding of the SaveMe backend (an Express + Mongoose password and
document vault).  The embedding covers:

* the password CRUD routes (backend/routes/passwords.js),
* the Password Mongoose schema (backend/models/Password.js),
* the document routes (backend/routes/documents.js),
* the avatar routes (backend/routes/user.js),
* the local-storage upload helpers (backend/utils/cloudinary.js):
  the avatar file filter, deleteFromCloudinary and extractPublicId.

Mongo documents are modelled as Lean structures, collections as lists, the
local filesystem as a list of existing relative paths, and each route handler
as a pure function from the request and the persistent state to the new state
and an HTTP-level result.  JavaScript string truthiness (undefined, null and
the empty string are falsy) is modelled explicitly, as are the Mongoose
setters and validators (trim, required, the category enum) that the routes
rely on via save() and runValidators.
-/

/-! ### JavaScript string primitives -/

/-- Truthiness of an optional JS string: undefined/null and the empty string
are falsy, every other string is truthy. -/
def jsTruthyStr : Option String → Bool
  | none => false
  | some s => !s.isEmpty

/-- The JS expression `x || d` for an optional string x and default d. -/
def jsOrStr (o : Option String) (d : String) : String :=
  match o with
  | none => d
  | some s => if s.isEmpty then d else s

/-- JS String.prototype.trim (also the Mongoose trim setter): whitespace is
dropped from both ends. -/
def jsTrim (s : String) : String :=
  String.mk (((s.toList.dropWhile Char.isWhitespace).reverse.dropWhile
    Char.isWhitespace).reverse)

/-- Does the character list start with the given pattern? -/
def charsStartWith : List Char → List Char → Bool
  | _, [] => true
  | [], _ :: _ => false
  | c :: cs, d :: ds => c == d && charsStartWith cs ds

/-- Does the pattern occur anywhere in the character list? -/
def charsContain (needle : List Char) : List Char → Bool
  | [] => needle.isEmpty
  | c :: cs => charsStartWith (c :: cs) needle || charsContain needle cs

/-- Index of the first occurrence of the pattern in the character list. -/
def firstOccurIdx (needle : List Char) : List Char → Option Nat
  | [] => if needle.isEmpty then some 0 else none
  | c :: cs =>
    if charsStartWith (c :: cs) needle then some 0
    else (firstOccurIdx needle cs).map (fun n => n + 1)

/-- Split a character list at every occurrence of a separator character
(JS String.prototype.split with a one-character separator). -/
def splitChar (sep : Char) : List Char → List (List Char)
  | [] => [[]]
  | c :: rest =>
    let r := splitChar sep rest
    if c == sep then [] :: r
    else
      match r with
      | [] => [[c]]
      | g :: gs => (c :: g) :: gs

/-- JS split on a one-character separator, on strings. -/
def splitOnChar (s : String) (sep : Char) : List String :=
  (splitChar sep s.toList).map String.mk

/-- JS String.prototype.startsWith. -/
def jsStartsWith (s pre : String) : Bool :=
  charsStartWith s.toList pre.toList

/-- JS String.prototype.toLowerCase (ASCII range). -/
def jsToLower (s : String) : String :=
  String.mk (s.toList.map Char.toLower)

/-- JS String.prototype.includes. -/
def jsIncludes (s t : String) : Bool :=
  charsContain t.toList s.toList

/-- JS String.prototype.replace with a string pattern: replaces only the
first occurrence of the pattern. -/
def replaceFirst (s pat rep : String) : String :=
  match firstOccurIdx pat.toList s.toList with
  | none => s
  | some i =>
    String.mk (s.toList.take i ++ rep.toList ++ s.toList.drop (i + pat.toList.length))

/-- Node path.basename (posix): trailing slashes are dropped, then the part
after the last slash is returned. -/
def jsBasename (p : String) : String :=
  let cs := p.toList
  let trimmed := (cs.reverse.dropWhile (fun c => c = '/')).reverse
  String.mk ((trimmed.reverse.takeWhile (fun c => c ≠ '/')).reverse)

/-- Node path.extname (posix) for ordinary file names: the suffix of the
basename from its last dot, empty when there is no dot or the only dot is
the leading character of the basename (dotfiles have no extension). -/
def jsExtname (p : String) : String :=
  let b := (jsBasename p).toList
  match b.reverse.findIdx? (fun c => c = '.') with
  | none => ""
  | some k =>
    let i := b.length - 1 - k
    if i = 0 then "" else String.mk (b.drop i)

/-- Node path.basename(p, ext): the basename with the suffix ext removed
when the basename ends with ext and is not exactly ext. -/
def jsBasenameExt (p ext : String) : String :=
  let b := (jsBasename p).toList
  let e := ext.toList
  if !e.isEmpty && charsStartWith b.reverse e.reverse && !(b == e) then
    String.mk (b.take (b.length - e.length))
  else String.mk b

/-- Model of the platform WHATWG URL parser, restricted to the
scheme://host/path[?query][#fragment] shapes the repository feeds it:
returns the pathname, or none when the parser would throw (no scheme
separator, empty scheme, or an empty host).  Exotic corner cases of the
external parser (extra slashes after the scheme, scheme-relative forms)
are outside the shapes exercised here. -/
def jsUrlPathname (url : String) : Option String :=
  let cs := url.toList
  match firstOccurIdx [':', '/', '/'] cs with
  | none => none
  | some i =>
    let scheme := cs.take i
    let rest := cs.drop (i + 3)
    if scheme.isEmpty || rest.isEmpty then none
    else
      let stop := rest.takeWhile (fun c => c ≠ '?' && c ≠ '#')
      match stop.findIdx? (fun c => c = '/') with
      | none => some "/"
      | some 0 => none
      | some j => some (String.mk (stop.drop j))

/-- Drop everything from the last dot on (JS lastIndexOf plus substring);
the string is returned unchanged when it has no dot. -/
def cutLastDot (s : String) : String :=
  let cs := s.toList
  match cs.reverse.findIdx? (fun c => c = '.') with
  | none => s
  | some k => String.mk (cs.take (cs.length - 1 - k))

/-- Replace the first element of a list matching p using f, leaving the
rest unchanged (Mongo findOneAndUpdate updates the single matched
document in place). -/
def updateFirst {α : Type} (p : α → Bool) (f : α → α) : List α → List α
  | [] => []
  | x :: xs => if p x then f x :: xs else x :: updateFirst p f xs

/-! ### Password entries (backend/models/Password.js, backend/routes/passwords.js) -/

/-- A Password document.  Ids and owner ids stand for Mongo ObjectIds;
timestamps are omitted because no claim mentions them. -/
structure PasswordRecord where
  id : Nat
  userId : Nat
  title : String
  username : Option String
  password : String
  website : Option String
  category : String
  notes : Option String
deriving Repr, DecidableEq

/-- The category enum of passwordSchema. -/
def validCategories : List String :=
  ["social", "email", "banking", "shopping", "work", "other"]

/-- The six body fields the password routes destructure from req.body;
any other field of the request body is dropped by the destructuring. -/
structure PwBody where
  title : Option String
  username : Option String
  password : Option String
  website : Option String
  category : Option String
  notes : Option String
deriving Repr, DecidableEq

/-- GET /api/passwords/:id — Password.findOne({ _id, userId }); the route
answers 404 when this is none, 200 with the record otherwise. -/
def getPassword (db : List PasswordRecord) (u i : Nat) : Option PasswordRecord :=
  db.find? (fun r => r.id == i && r.userId == u)

inductive PwCreateResult where
  | badRequest : PwCreateResult
  | serverError : PwCreateResult
  | created : PasswordRecord → PwCreateResult
deriving Repr, DecidableEq

/-- HTTP status of each POST /api/passwords outcome: the 400 guard message
is a ValidationError, a Mongoose validation failure on save is caught by
the generic handler as 500, success is 201. -/
def pwCreateStatus : PwCreateResult → Nat
  | .badRequest => 400
  | .serverError => 500
  | .created _ => 201

/-- POST /api/passwords.  The route rejects with 400 when title or password
is JS-falsy, before any persistence attempt; otherwise it builds the new
document (category defaulted with category || 'other') and saves it, at
which point the Mongoose setters (trim) and validators (required on title
and password, the category enum) run; a validation failure is caught and
becomes a 500 with nothing persisted. -/
def createPassword (db : List PasswordRecord) (u newId : Nat) (b : PwBody) :
    List PasswordRecord × PwCreateResult :=
  if !jsTruthyStr b.title || !jsTruthyStr b.password then (db, .badRequest)
  else
    let r : PasswordRecord :=
      { id := newId
        userId := u
        title := jsTrim (b.title.getD "")
        username := b.username.map jsTrim
        password := b.password.getD ""
        website := b.website.map jsTrim
        category := jsTrim (jsOrStr b.category "other")
        notes := b.notes.map jsTrim }
    if r.title.isEmpty || r.password.isEmpty || !validCategories.contains r.category then
      (db, .serverError)
    else (db ++ [r], .created r)

inductive PwUpdateResult where
  | notFound : PwUpdateResult
  | serverError : PwUpdateResult
  | updated : PasswordRecord → PwUpdateResult
deriving Repr, DecidableEq

/-- The update document of PUT /api/passwords/:id:
{ title, username, password, website, category: category || 'other', notes }.
Mongoose drops the fields whose value is undefined from the update, so an
absent body field leaves the stored field unchanged; category is always
written.  String setters (trim) apply to the written paths. -/
def applyPwUpdate (b : PwBody) (r : PasswordRecord) : PasswordRecord :=
  { r with
    title := match b.title with | some t => jsTrim t | none => r.title
    username := match b.username with | some s => some (jsTrim s) | none => r.username
    password := match b.password with | some p => p | none => r.password
    website := match b.website with | some s => some (jsTrim s) | none => r.website
    category := jsTrim (jsOrStr b.category "other")
    notes := match b.notes with | some s => some (jsTrim s) | none => r.notes }

/-- runValidators: true validates exactly the paths present in the update
document — required on title and password when they are being written, and
the enum on category, which is always written. -/
def pwUpdateValid (b : PwBody) (r' : PasswordRecord) : Bool :=
  (b.title == none || !r'.title.isEmpty) &&
  (b.password == none || !r'.password.isEmpty) &&
  validCategories.contains r'.category

/-- PUT /api/passwords/:id — Password.findOneAndUpdate({ _id, userId }, upd,
{ new: true, runValidators: true }).  No match is a 404; a validation
failure is caught as 500 with the store unchanged; otherwise the matched
document is replaced in place and returned post-update. -/
def updatePassword (db : List PasswordRecord) (u i : Nat) (b : PwBody) :
    List PasswordRecord × PwUpdateResult :=
  match db.find? (fun r => r.id == i && r.userId == u) with
  | none => (db, .notFound)
  | some r =>
    let r' := applyPwUpdate b r
    if pwUpdateValid b r' then
      (updateFirst (fun x => x.id == i && x.userId == u) (fun _ => r') db, .updated r')
    else (db, .serverError)

inductive PwDeleteResult where
  | notFound : PwDeleteResult
  | success : PwDeleteResult
deriving Repr, DecidableEq

/-- DELETE /api/passwords/:id — Password.findOneAndDelete({ _id, userId });
404 when nothing matches, otherwise the matched document is removed. -/
def deletePassword (db : List PasswordRecord) (u i : Nat) :
    List PasswordRecord × PwDeleteResult :=
  match db.find? (fun r => r.id == i && r.userId == u) with
  | none => (db, .notFound)
  | some _ => (db.eraseP (fun r => r.id == i && r.userId == u), .success)

/-! ### Local-storage upload helpers (backend/utils/cloudinary.js) -/

/-- Result object of deleteFromCloudinary. -/
structure CloudinaryResult where
  result : String
deriving Repr, DecidableEq

/-- deleteFromCloudinary, the local-storage blob deleter.  The filesystem is
modelled as the list of existing paths relative to the backend root (so the
avatars area is uploads/avatars and the documents area uploads/documents).
The function resolves the public id to a candidate path exactly as the
source does, unlinks the file when it exists, and always returns
{ result: 'ok' } — a missing file and a failed unlink are both swallowed. -/
def deleteFromCloudinary (fs : List String) (publicId : String) :
    List String × CloudinaryResult :=
  let filePath : Option String :=
    if jsStartsWith publicId "uploads/" then some publicId
    else if jsIncludes publicId "/" then some ("uploads/" ++ publicId)
    else if fs.contains ("uploads/avatars/" ++ publicId) then
      some ("uploads/avatars/" ++ publicId)
    else if fs.contains ("uploads/documents/" ++ publicId) then
      some ("uploads/documents/" ++ publicId)
    else none
  match filePath with
  | none => (fs, { result := "ok" })
  | some p => (if fs.contains p then fs.eraseP (fun q => q == p) else fs, { result := "ok" })

/-- The JS regex test for a version segment: v followed by one or more
digits. -/
def isVersionSeg (cs : List Char) : Bool :=
  match cs with
  | [] => false
  | c :: rest => c == 'v' && !rest.isEmpty && rest.all (fun d => d.isDigit)

/-- The version-segment skip of extractPublicId: drop the head of the list
when it matches the regex for v followed by one or more digits. -/
def dropVersionSeg (parts : List String) : List String :=
  match parts with
  | [] => []
  | s :: rest => if isVersionSeg s.toList then rest else s :: rest

/-- extractPublicId.  A falsy url yields null.  A url that does not start
with http is a local path and yields its basename with the extension
stripped.  Otherwise the url is parsed, the segment 'upload' is located in
the pathname (null when absent or when parsing throws), an optional
version segment is skipped, the remaining segments are joined and the
trailing extension is cut at the last dot. -/
def extractPublicId (url : String) : Option String :=
  if url.isEmpty then none
  else if !jsStartsWith url "http" then
    some (jsBasenameExt url (jsExtname url))
  else
    match jsUrlPathname url with
    | none => none
    | some pathname =>
      let pathParts := splitOnChar pathname '/' 
      match pathParts.findIdx? (fun s => s == "upload") with
      | none => none
      | some uploadIndex =>
        let publicIdParts := dropVersionSeg (pathParts.drop (uploadIndex + 1))
        some (cutLastDot (String.intercalate "/" publicIdParts))

/-! ### Documents (backend/routes/documents.js) -/

/-- Modelled from the spec: the Document schema file (backend/models/Document.js)
is not among the sources, so the record shape is taken from §3 of the spec
and from the fields the document routes read and write — id, ownerId
(userId), stored and original names, the locator (filePath: an absolute
remote URL or a relative local path), content type and size. -/
structure DocumentRecord where
  id : Nat
  userId : Nat
  filename : String
  originalName : String
  filePath : String
  fileType : String
  fileSize : Nat
deriving Repr, DecidableEq

/-- GET /api/documents/:id — Document.findOne({ _id, userId }); 404 when
none, 200 with the record otherwise. -/
def getDocument (db : List DocumentRecord) (u i : Nat) : Option DocumentRecord :=
  db.find? (fun d => d.id == i && d.userId == u)

inductive DownloadResult where
  | recordNotFound : DownloadResult
  | redirect : String → DownloadResult
  | fileNotFound : DownloadResult
deriving Repr, DecidableEq

/-- HTTP status of each GET /api/documents/:id/download outcome. -/
def downloadStatus : DownloadResult → Nat
  | .recordNotFound => 404
  | .redirect _ => 302
  | .fileNotFound => 404

/-- Error message of each download outcome (empty for a redirect): the two
404s carry distinct messages. -/
def downloadMessage : DownloadResult → String
  | .recordNotFound => "Document not found"
  | .redirect _ => ""
  | .fileNotFound => "File not found"

/-- GET /api/documents/:id/download.  The record is looked up under the
owner filter; a truthy locator starting with http is answered with a
redirect to it, with the first '/upload/' replaced by
'/upload/fl_attachment/'; any other locator falls through to a 404 with
'File not found' — the route has no local byte-stream branch and never
touches the filesystem. -/
def downloadDocument (db : List DocumentRecord) (u i : Nat) : DownloadResult :=
  match db.find? (fun d => d.id == i && d.userId == u) with
  | none => .recordNotFound
  | some doc =>
    if !doc.filePath.isEmpty && jsStartsWith doc.filePath "http" then
      .redirect (replaceFirst doc.filePath "/upload/" "/upload/fl_attachment/")
    else .fileNotFound

inductive DocDeleteResult where
  | notFound : DocDeleteResult
  | success : DocDeleteResult
deriving Repr, DecidableEq

/-- DELETE /api/documents/:id.  The record is looked up under the owner
filter (404 when absent).  For a truthy http locator the route extracts
the public id and, when that is truthy, attempts the best-effort blob
deletion under the password-manager/documents prefix, any failure being
swallowed; the metadata document is then removed by id and the route
answers success regardless of the blob outcome. -/
def deleteDocumentHandler (db : List DocumentRecord) (fs : List String) (u i : Nat) :
    List DocumentRecord × List String × DocDeleteResult :=
  match db.find? (fun d => d.id == i && d.userId == u) with
  | none => (db, fs, .notFound)
  | some doc =>
    let fs' :=
      if !doc.filePath.isEmpty && jsStartsWith doc.filePath "http" then
        let pid := extractPublicId doc.filePath
        if jsTruthyStr pid then
          (deleteFromCloudinary fs ("password-manager/documents/" ++ pid.getD "")).1
        else fs
      else fs
    (db.eraseP (fun x => x.id == doc.id), fs', .success)

/-! ### Avatars (backend/routes/user.js, uploadAvatar in backend/utils/cloudinary.js) -/

/-- Modelled from the spec: the User schema file (backend/models/User.js) is
not among the sources; per §3 of the spec a User is referenced by id and
holds a single optional avatar locator, unset (none) until an avatar is
uploaded and set to null again on deletion. -/
structure UserRec where
  id : Nat
  avatar : Option String
deriving Repr, DecidableEq

/-- The alternatives of the allow-list regex of uploadAvatar.fileFilter. -/
def imageTokens : List String := ["jpeg", "jpg", "png", "gif", "webp"]

/-- The JS test of the unanchored regex on a string: some alternative occurs
somewhere in the string as a substring. -/
def regexTestImages (s : String) : Bool :=
  imageTokens.any (fun t => jsIncludes s t)

/-- uploadAvatar.fileFilter: the unanchored allow-list regex is tested
against the lowercased original file name and against the declared mime
type, and the file is accepted exactly when both tests pass. -/
def avatarFileFilter (originalname mimetype : String) : Bool :=
  regexTestImages (jsToLower originalname) && regexTestImages mimetype

inductive AvatarGateResult where
  | rejected : String → AvatarGateResult
  | accepted : AvatarGateResult
deriving Repr, DecidableEq

/-- The multer gate of POST /api/user/avatar as surfaced by the route's
error branch: a fileFilter rejection and an oversize file both become a
400 whose message the route forwards, and nothing is stored. -/
def avatarUploadGate (originalname mimetype : String) (size : Nat) : AvatarGateResult :=
  if !avatarFileFilter originalname mimetype then
    .rejected "Only image files are allowed"
  else if 5 * 1024 * 1024 < size then
    .rejected "File size too large. Maximum size is 5MB"
  else .accepted

/-- The multer file object of an accepted upload: original name, declared
mime type, size, the generated unique file name, and the storage path
(an http URL when a remote backend produced it, a local path otherwise). -/
structure ReqFile where
  originalname : String
  mimetype : String
  size : Nat
  filename : String
  path : String
deriving Repr, DecidableEq

/-- The observable storage and persistence effects of the avatar upload
route, in the order they are performed. -/
inductive AvEvent where
  | storeBlob : String → AvEvent
  | deleteBlob : String → AvEvent
  | saveUser : Option String → AvEvent
deriving Repr, DecidableEq

inductive AvatarUploadResult where
  | badRequest : String → AvatarUploadResult
  | userNotFound : AvatarUploadResult
  | ok : String → AvatarUploadResult
deriving Repr, DecidableEq

/-- POST /api/user/avatar.  A missing file is a 400; a gate rejection is a
400 with nothing stored.  On acceptance multer stores the new blob first,
then the handler loads the user (404 when absent), attempts the
best-effort deletion of the old blob when the stored avatar locator is
truthy and its extracted public id is truthy, and only then assigns the
new locator and saves the user, answering 200 with the new locator. -/
def avatarUploadRoute (user : Option UserRec) (file : Option ReqFile) :
    Option UserRec × List AvEvent × AvatarUploadResult :=
  match file with
  | none => (user, [], .badRequest "No file uploaded. Please select an image file.")
  | some f =>
    match avatarUploadGate f.originalname f.mimetype f.size with
    | .rejected msg => (user, [], .badRequest msg)
    | .accepted =>
      let stored := [AvEvent.storeBlob f.filename]
      match user with
      | none => (none, stored, .userNotFound)
      | some u =>
        let delEvents :=
          if jsTruthyStr u.avatar then
            let pid := extractPublicId (u.avatar.getD "")
            if jsTruthyStr pid then
              [AvEvent.deleteBlob ("password-manager/avatars/" ++ pid.getD "")]
            else []
          else []
        let newAvatar :=
          if !f.path.isEmpty && jsStartsWith f.path "http" then f.path
          else "/uploads/avatars/" ++ f.filename
        (some { u with avatar := some newAvatar },
         stored ++ delEvents ++ [AvEvent.saveUser (some newAvatar)],
         .ok newAvatar)

inductive AvatarDeleteResult where
  | userNotFound : AvatarDeleteResult
  | ok : AvatarDeleteResult
deriving Repr, DecidableEq

/-- DELETE /api/user/avatar.  The user is loaded (404 when absent); when the
stored avatar locator is truthy the route attempts the best-effort blob
deletion (swallowing failures), sets the locator to null and saves; in
every found-user case it answers the same success message. -/
def avatarDeleteRoute (user : Option UserRec) (fs : List String) :
    Option UserRec × List String × AvatarDeleteResult :=
  match user with
  | none => (none, fs, .userNotFound)
  | some u =>
    if jsTruthyStr u.avatar then
      let fs' :=
        let pid := extractPublicId (u.avatar.getD "")
        if jsTruthyStr pid then
          (deleteFromCloudinary fs ("password-manager/avatars/" ++ pid.getD "")).1
        else fs
      (some { u with avatar := none }, fs', .ok)
    else (some u, fs, .ok)

/-! ### Sample data used by witnesses and counterexamples -/

/-- A password entry owned by user 1. -/
def pwA : PasswordRecord :=
  { id := 1, userId := 1, title := "Bank", username := none, password := "x",
    website := none, category := "other", notes := none }

/-- A password entry owned by user 7. -/
def pwBank : PasswordRecord :=
  { id := 1, userId := 7, title := "Bank", username := none, password := "x",
    website := none, category := "other", notes := none }

/-- A document owned by user 1 with a remote locator. -/
def docRemote : DocumentRecord :=
  { id := 1, userId := 1, filename := "1700-1.pdf", originalName := "a.pdf",
    filePath := "https://res.cloudinary.com/demo/image/upload/v1/docs/a.pdf",
    fileType := "application/pdf", fileSize := 3 }

/-- A document owned by user 7 with a local locator. -/
def docLocal : DocumentRecord :=
  { id := 1, userId := 7, filename := "1700-2.pdf", originalName := "a.pdf",
    filePath := "/uploads/documents/1700-2.pdf",
    fileType := "application/pdf", fileSize := 3 }

/-- The empty password request body: every field absent. -/
def emptyPwBody : PwBody :=
  { title := none, username := none, password := none, website := none,
    category := none, notes := none }

/-- A user who already has a locally stored avatar. -/
def oldAvatarUser : UserRec := { id := 7, avatar := some "/uploads/avatars/old.png" }

/-- An accepted local avatar upload file. -/
def newAvatarFile : ReqFile :=
  { originalname := "new.png", mimetype := "image/png", size := 100,
    filename := "1700-42.png", path := "/backend/uploads/avatars/1700-42.png" }

/-! ### Helper lemmas -/

/-- A falsy field makes the JS default expression return the default. -/
theorem jsOrStr_of_falsy (o : Option String) (d : String)
    (h : jsTruthyStr o = false) : jsOrStr o d = d := by
  cases o with
  | none => rfl
  | some s =>
    simp only [jsTruthyStr, Bool.not_eq_false'] at h
    simp [jsOrStr, h]

theorem trim_other : jsTrim "other" = "other" := by decide

/-- Mongo ids are unique, so a findOne keyed by the id of a record of owner
a and filtered by a different owner b finds nothing (passwords). -/
theorem pw_find_owner_none (db : List PasswordRecord) (r : PasswordRecord) (b : Nat)
    (hr : r ∈ db) (hnd : (db.map PasswordRecord.id).Nodup) (hb : r.userId ≠ b) :
    db.find? (fun x => x.id == r.id && x.userId == b) = none := by
  rw [List.find?_eq_none]
  intro x hx
  simp only [Bool.and_eq_true, beq_iff_eq, not_and]
  intro hid hub
  have hxr : x = r := List.inj_on_of_nodup_map hnd hx hr hid
  rw [hxr] at hub
  exact hb hub

/-- Mongo ids are unique, so a findOne keyed by the id of a record of owner
a and filtered by a different owner b finds nothing (documents). -/
theorem doc_find_owner_none (db : List DocumentRecord) (d : DocumentRecord) (b : Nat)
    (hd : d ∈ db) (hnd : (db.map DocumentRecord.id).Nodup) (hb : d.userId ≠ b) :
    db.find? (fun x => x.id == d.id && x.userId == b) = none := by
  rw [List.find?_eq_none]
  intro x hx
  simp only [Bool.and_eq_true, beq_iff_eq, not_and]
  intro hid hub
  have hxd : x = d := List.inj_on_of_nodup_map hnd hx hd hid
  rw [hxd] at hub
  exact hb hub

/-- updateFirst preserves any view g that its patch f preserves on matched
elements. -/
theorem updateFirst_map_eq {α β : Type} (p : α → Bool) (f : α → α) (g : α → β)
    (h : ∀ x, p x = true → g (f x) = g x) :
    ∀ l : List α, (updateFirst p f l).map g = l.map g := by
  intro l
  induction l with
  | nil => rfl
  | cons x xs ih =>
    cases hx : p x with
    | true => simp [updateFirst, hx, h x hx]
    | false => simp [updateFirst, hx, ih]

/-- The blob deleter always reports ok, whatever the filesystem holds. -/
theorem deleteFromCloudinary_ok (fs : List String) (pid : String) :
    (deleteFromCloudinary fs pid).2 = { result := "ok" } := by
  unfold deleteFromCloudinary
  repeat' split
  all_goals rfl

/-! ### Claim theorems -/

/-- Claim C1: for every password entry or document owned by user a and every
other user b, the Get, Update, Download and Delete routes looked up with
b's identity answer not-found and never touch or return the record — the
owner filter sits inside the findOne/findOneAndUpdate/findOneAndDelete
predicate itself, so a foreign id simply fails to match. -/
theorem owner_isolation (pdb : List PasswordRecord) (ddb : List DocumentRecord)
    (fs : List String) (b : Nat) (body : PwBody) (r : PasswordRecord) (d : DocumentRecord)
    (hr : r ∈ pdb) (hnd : (pdb.map PasswordRecord.id).Nodup) (hbr : r.userId ≠ b)
    (hd : d ∈ ddb) (hndd : (ddb.map DocumentRecord.id).Nodup) (hbd : d.userId ≠ b) :
    getPassword pdb b r.id = none ∧
    updatePassword pdb b r.id body = (pdb, .notFound) ∧
    deletePassword pdb b r.id = (pdb, .notFound) ∧
    getDocument ddb b d.id = none ∧
    downloadDocument ddb b d.id = .recordNotFound ∧
    deleteDocumentHandler ddb fs b d.id = (ddb, fs, .notFound) := by
  have hp := pw_find_owner_none pdb r b hr hnd hbr
  have hdoc := doc_find_owner_none ddb d b hd hndd hbd
  refine ⟨?_, ?_, ?_, ?_, ?_, ?_⟩
  · simpa [getPassword] using hp
  · simp [updatePassword, hp]
  · simp [deletePassword, hp]
  · simpa [getDocument] using hdoc
  · simp [downloadDocument, hdoc]
  · simp [deleteDocumentHandler, hdoc]

/-- Witness for owner_isolation: user 2 asking for the records of user 1. -/
theorem owner_isolation_witness :
    getPassword [pwA] 2 pwA.id = none ∧
    updatePassword [pwA] 2 pwA.id emptyPwBody = ([pwA], .notFound) ∧
    deletePassword [pwA] 2 pwA.id = ([pwA], .notFound) ∧
    getDocument [docRemote] 2 docRemote.id = none ∧
    downloadDocument [docRemote] 2 docRemote.id = .recordNotFound ∧
    deleteDocumentHandler [docRemote] [] 2 docRemote.id = ([docRemote], [], .notFound) :=
  owner_isolation [pwA] [docRemote] [] 2 emptyPwBody pwA docRemote
    (by simp) (by decide) (by decide) (by simp) (by decide) (by decide)

/-- Claim C2: the password update document is built only from the six
destructured body fields and never contains userId, so every update
request preserves, record by record, both the id and the owner of every
stored password entry. -/
theorem password_update_preserves_owner (db : List PasswordRecord) (u i : Nat) (b : PwBody) :
    (updatePassword db u i b).1.map (fun r => (r.id, r.userId)) =
      db.map (fun r => (r.id, r.userId)) := by
  unfold updatePassword
  cases hf : db.find? (fun r => r.id == i && r.userId == u) with
  | none => rfl
  | some r =>
    have hpr := List.find?_some hf
    simp only [Bool.and_eq_true, beq_iff_eq] at hpr
    simp only
    split
    · apply updateFirst_map_eq
      intro x hx
      simp only [Bool.and_eq_true, beq_iff_eq] at hx
      simp [applyPwUpdate, hpr.1, hpr.2, hx.1, hx.2]
    · rfl

/-- Claim C3 counterexample: a whitespace-only title is JS-truthy, so it
passes the route's 400 guard, but the Mongoose trim setter reduces it to
the empty string and the required validator then rejects the save — the
route answers 500, not 400, and creates nothing, although title and
password were both present and every other field absent. -/
theorem create_blank_title_cex :
    createPassword [] 7 1
      { title := some " ", username := none, password := some "x",
        website := none, category := none, notes := none } = ([], .serverError) ∧
    jsTruthyStr (some " ") = true ∧ jsTruthyStr (some "x") = true := by
  decide

/-- Claim C3 (amended): creating a password entry with a JS-falsy (absent or
empty) title or password is rejected with a 400 ValidationError before any
persistence attempt; when both are truthy and the trimmed title is
nonempty, all other fields may be absent and the entry is then created
(201) with category defaulting to "other"; a created entry always has
category "other" whenever the body's category was absent or empty.  A
title that trims to empty instead fails schema validation with a 500. -/
theorem create_validation_amended (db : List PasswordRecord) (u newId : Nat) (b : PwBody) :
    ((jsTruthyStr b.title = false ∨ jsTruthyStr b.password = false) →
      createPassword db u newId b = (db, .badRequest) ∧
      pwCreateStatus (createPassword db u newId b).2 = 400) ∧
    (∀ r, (createPassword db u newId b).2 = .created r →
      jsTruthyStr b.category = false → r.category = "other") ∧
    (jsTruthyStr b.title = true → jsTruthyStr b.password = true →
      (jsTrim (b.title.getD "")).isEmpty = false →
      b.username = none → b.website = none → b.category = none → b.notes = none →
      createPassword db u newId b =
        (db ++ [{ id := newId, userId := u, title := jsTrim (b.title.getD ""),
                  username := none, password := b.password.getD "",
                  website := none, category := "other", notes := none }],
         .created { id := newId, userId := u, title := jsTrim (b.title.getD ""),
                    username := none, password := b.password.getD "",
                    website := none, category := "other", notes := none })) := by
  refine ⟨?_, ?_, ?_⟩
  · intro h
    have hg : (!jsTruthyStr b.title || !jsTruthyStr b.password) = true := by
      rcases h with h | h <;> simp [h]
    simp [createPassword, hg, pwCreateStatus]
  · intro r hr hcat
    unfold createPassword at hr
    dsimp only at hr
    split at hr
    · simp at hr
    · split at hr
      · simp at hr
      · simp only [PwCreateResult.created.injEq] at hr
        rw [← hr, jsOrStr_of_falsy b.category "other" hcat]
        exact trim_other
  · intro ht hp htrim hun hwe hca hno
    have hg : (!jsTruthyStr b.title || !jsTruthyStr b.password) = false := by
      simp [ht, hp]
    have hpw : (b.password.getD "").isEmpty = false := by
      cases hbp : b.password with
      | none => rw [hbp] at hp; simp [jsTruthyStr] at hp
      | some s =>
        rw [hbp] at hp
        simp only [jsTruthyStr, Bool.not_eq_false'] at hp
        simpa using hp
    simp [createPassword, hg, hun, hwe, hca, hno, htrim, hpw, jsOrStr, trim_other,
      validCategories]

/-- Witness for create_validation_amended at a concrete body: a missing
password is a 400, and a create with only title "Bank" and password "x"
succeeds with category defaulted to "other". -/
theorem create_validation_amended_witness :
    (createPassword [] 7 1
      { title := some "Bank", username := none, password := none,
        website := none, category := none, notes := none } = ([], .badRequest) ∧
     pwCreateStatus (createPassword [] 7 1
      { title := some "Bank", username := none, password := none,
        website := none, category := none, notes := none }).2 = 400) ∧
    createPassword [] 7 1
      { title := some "Bank", username := none, password := some "x",
        website := none, category := none, notes := none } =
      ([{ id := 1, userId := 7, title := jsTrim "Bank", username := none,
          password := "x", website := none, category := "other", notes := none }],
       .created { id := 1, userId := 7, title := jsTrim "Bank", username := none,
                  password := "x", website := none, category := "other",
                  notes := none }) :=
  ⟨(create_validation_amended [] 7 1
      { title := some "Bank", username := none, password := none,
        website := none, category := none, notes := none }).1 (Or.inr (by decide)),
   (create_validation_amended [] 7 1
      { title := some "Bank", username := none, password := some "x",
        website := none, category := none, notes := none }).2.2
     (by decide) (by decide) (by decide) rfl rfl rfl rfl⟩

/-- Claim C4 counterexample: updating an existing, correctly owned entry
with the invalid category "personal" does not fall back to "other" —
runValidators rejects the enum value, the route answers 500 and the store
is unchanged. -/
theorem update_invalid_category_cex :
    updatePassword [pwBank] 7 1
      { title := none, username := none, password := none, website := none,
        category := some "personal", notes := none } = ([pwBank], .serverError) ∧
    validCategories.contains "personal" = false ∧
    (getPassword [pwBank] 7 1).isSome = true := by
  decide

/-- Claim C4 (amended): Update(id, ownerId, fields) applies only when a
record with that id exists under that owner, otherwise not-found; the
category falls back to the default "other" only when the body's category
is absent or empty, while a provided invalid category fails the enum
validator so the route answers 500 and nothing is updated; on success the
matched record is replaced in place and the post-update record is
returned. -/
theorem update_category_amended (db : List PasswordRecord) (u i : Nat) (b : PwBody) :
    (db.find? (fun r => r.id == i && r.userId == u) = none →
      updatePassword db u i b = (db, .notFound)) ∧
    (∀ r, db.find? (fun r => r.id == i && r.userId == u) = some r →
      (jsTruthyStr b.category = false → (applyPwUpdate b r).category = "other") ∧
      (pwUpdateValid b (applyPwUpdate b r) = false →
        updatePassword db u i b = (db, .serverError)) ∧
      (pwUpdateValid b (applyPwUpdate b r) = true →
        updatePassword db u i b =
          (updateFirst (fun x => x.id == i && x.userId == u)
            (fun _ => applyPwUpdate b r) db, .updated (applyPwUpdate b r)))) := by
  refine ⟨?_, ?_⟩
  · intro h
    simp [updatePassword, h]
  · intro r hf
    refine ⟨?_, ?_, ?_⟩
    · intro hcat
      show jsTrim (jsOrStr b.category "other") = "other"
      rw [jsOrStr_of_falsy b.category "other" hcat]
      exact trim_other
    · intro hv
      simp [updatePassword, hf, hv]
    · intro hv
      simp [updatePassword, hf, hv]

/-- Witness for update_category_amended: the record pwBank exists under
owner 7; an update carrying only the valid category "banking" succeeds
and returns the post-update record. -/
theorem update_category_amended_witness :
    updatePassword [pwBank] 7 1
      { title := none, username := none, password := none, website := none,
        category := some "banking", notes := none } =
      (updateFirst (fun x => x.id == 1 && x.userId == 7)
        (fun _ => applyPwUpdate
          { title := none, username := none, password := none, website := none,
            category := some "banking", notes := none } pwBank) [pwBank],
       .updated (applyPwUpdate
          { title := none, username := none, password := none, website := none,
            category := some "banking", notes := none } pwBank)) :=
  ((update_category_amended [pwBank] 7 1
      { title := none, username := none, password := none, website := none,
        category := some "banking", notes := none }).2 pwBank (by decide)).2.2
    (by decide)

/-- Claim C5: blob deletion during document deletion is best-effort and
non-throwing — deleteFromCloudinary answers ok for every locator and
every filesystem, a missing blob included; and the delete route, once the
record is found under its owner, always removes the metadata record and
answers success, with both the resulting store and the result independent
of the filesystem state. -/
theorem document_delete_best_effort (db : List DocumentRecord) (fs fs2 : List String)
    (u i : Nat) :
    (∀ pid, (deleteFromCloudinary fs pid).2 = { result := "ok" }) ∧
    (∀ doc, db.find? (fun d => d.id == i && d.userId == u) = some doc →
      (deleteDocumentHandler db fs u i).2.2 = .success ∧
      (deleteDocumentHandler db fs u i).1 = db.eraseP (fun x => x.id == doc.id)) ∧
    ((deleteDocumentHandler db fs u i).1 = (deleteDocumentHandler db fs2 u i).1 ∧
     (deleteDocumentHandler db fs u i).2.2 = (deleteDocumentHandler db fs2 u i).2.2) := by
  refine ⟨fun pid => deleteFromCloudinary_ok fs pid, ?_, ?_⟩
  · intro doc hf
    constructor <;> simp [deleteDocumentHandler, hf]
  · cases hf : db.find? (fun d => d.id == i && d.userId == u) with
    | none => constructor <;> simp [deleteDocumentHandler, hf]
    | some doc => constructor <;> simp [deleteDocumentHandler, hf]

/-- Witness for document_delete_best_effort: deleting the remote document of
user 1 succeeds and empties the store, on an empty filesystem where the
backing blob certainly does not exist. -/
theorem document_delete_best_effort_witness :
    (deleteFromCloudinary [] "password-manager/documents/docs/a").2 = { result := "ok" } ∧
    (deleteDocumentHandler [docRemote] [] 1 1).2.2 = .success ∧
    (deleteDocumentHandler [docRemote] [] 1 1).1 =
      [docRemote].eraseP (fun x => x.id == docRemote.id) :=
  ⟨(document_delete_best_effort [docRemote] [] ["somewhere"] 1 1).1
      "password-manager/documents/docs/a",
   ((document_delete_best_effort [docRemote] [] ["somewhere"] 1 1).2.1 docRemote
      (by decide)).1,
   ((document_delete_best_effort [docRemote] [] ["somewhere"] 1 1).2.1 docRemote
      (by decide)).2⟩

/-- Claim C6 counterexample: the extraction function does not treat every
locator as a URL — for the local path /uploads/avatars/123.png, which no
URL parser accepts and whose segments contain no upload marker, it
answers the basename 123 instead of the null the claim requires for a
malformed or unexpected URL shape. -/
theorem extract_public_id_local_cex :
    extractPublicId "/uploads/avatars/123.png" = some "123" ∧
    jsUrlPathname "/uploads/avatars/123.png" = none ∧
    (splitOnChar "/uploads/avatars/123.png" '/').contains "upload" = false := by
  decide

/-- Claim C6 (amended): only for locators starting with "http" does the
extraction parse the URL, locate the fixed upload marker, optionally skip
a v-digits version segment, join the remaining segments and strip the
trailing extension, with null for an unparseable URL or a missing marker;
an empty locator yields null, but a non-empty locator that does not start
with "http" yields the basename with its extension stripped instead of
null; the delete route skips remote deletion and still removes the
metadata and answers success whenever the extracted id is falsy. -/
theorem extract_public_id_amended :
    (extractPublicId "" = none) ∧
    (∀ url : String, url.isEmpty = false → jsStartsWith url "http" = false →
      extractPublicId url = some (jsBasenameExt url (jsExtname url))) ∧
    (∀ url : String, jsStartsWith url "http" = true → jsUrlPathname url = none →
      extractPublicId url = none) ∧
    (∀ url p, jsStartsWith url "http" = true → jsUrlPathname url = some p →
      (splitOnChar p '/').findIdx? (fun s => s == "upload") = none →
      extractPublicId url = none) ∧
    (∀ url p k, jsStartsWith url "http" = true → jsUrlPathname url = some p →
      (splitOnChar p '/').findIdx? (fun s => s == "upload") = some k →
      extractPublicId url =
        some (cutLastDot (String.intercalate "/"
          (dropVersionSeg ((splitOnChar p '/').drop (k + 1)))))) ∧
    (∀ db fs u i doc, db.find? (fun d => d.id == i && d.userId == u) = some doc →
      jsTruthyStr (extractPublicId doc.filePath) = false →
      deleteDocumentHandler db fs u i =
        (db.eraseP (fun x => x.id == doc.id), fs, .success)) := by
  have hne : ∀ url : String, jsStartsWith url "http" = true → url.isEmpty = false := by
    intro url h
    cases hemp : url.isEmpty with
    | false => rfl
    | true =>
      have : url = "" := (String.isEmpty_iff url).mp hemp
      subst this
      exact absurd h (by decide)
  refine ⟨by decide, ?_, ?_, ?_, ?_, ?_⟩
  · intro url hemp hsw
    simp [extractPublicId, hemp, hsw]
  · intro url hsw hurl
    simp [extractPublicId, hne url hsw, hsw, hurl]
  · intro url p hsw hurl hfind
    simp [extractPublicId, hne url hsw, hsw, hurl, hfind]
  · intro url p k hsw hurl hfind
    simp [extractPublicId, hne url hsw, hsw, hurl, hfind]
  · intro db fs u i doc hf hpid
    simp [deleteDocumentHandler, hf, hpid]

/-- Witness for extract_public_id_amended: the marker branch on a shaped
remote locator and the basename branch on a local locator. -/
theorem extract_public_id_amended_witness :
    extractPublicId "https://res.cloudinary.com/demo/image/upload/v1234/folder/file.pdf" =
      some (cutLastDot (String.intercalate "/" (dropVersionSeg
        ((splitOnChar "/demo/image/upload/v1234/folder/file.pdf" '/').drop (3 + 1))))) ∧
    extractPublicId "/uploads/avatars/123.png" =
      some (jsBasenameExt "/uploads/avatars/123.png"
        (jsExtname "/uploads/avatars/123.png")) :=
  ⟨extract_public_id_amended.2.2.2.2.1
      "https://res.cloudinary.com/demo/image/upload/v1234/folder/file.pdf"
      "/demo/image/upload/v1234/folder/file.pdf" 3 (by decide) (by decide) (by decide),
   extract_public_id_amended.2.1 "/uploads/avatars/123.png" (by decide) (by decide)⟩

/-- Claim C7 counterexample: the allow-list regex is unanchored and tested
against the whole lowercased file name, not the extension — the file
mypng.txt with declared content type image/png is accepted although its
extension txt is not in the allow-list. -/
theorem avatar_filter_substring_cex :
    avatarFileFilter "mypng.txt" "image/png" = true ∧
    jsExtname "mypng.txt" = ".txt" ∧
    imageTokens.contains "txt" = false ∧
    imageTokens.contains ".txt" = false := by
  decide

/-- Claim C7 (amended): an avatar file is accepted exactly when some
allow-list token occurs as a substring of the lowercased file name and
some token occurs as a substring of the declared content type; either
test failing rejects the upload with a 400 before anything is stored or
changed, so a .png name with a content type containing no token is
rejected, but a non-image extension is accepted whenever a token occurs
elsewhere in the name and the content type matches. -/
theorem avatar_filter_amended (name mime : String) (sz : Nat) (user : Option UserRec)
    (f : ReqFile) :
    (avatarFileFilter name mime =
      (imageTokens.any (fun t => jsIncludes (jsToLower name) t) &&
       imageTokens.any (fun t => jsIncludes mime t))) ∧
    (regexTestImages mime = false →
      avatarUploadGate name mime sz = .rejected "Only image files are allowed") ∧
    (avatarUploadGate name mime sz = .accepted ↔
      (avatarFileFilter name mime = true ∧ sz ≤ 5 * 1024 * 1024)) ∧
    (avatarFileFilter f.originalname f.mimetype = false →
      avatarUploadRoute user (some f) =
        (user, [], .badRequest "Only image files are allowed")) ∧
    avatarFileFilter "photo.png" "text/plain" = false := by
  refine ⟨rfl, ?_, ?_, ?_, by decide⟩
  · intro h
    simp [avatarUploadGate, avatarFileFilter, h]
  · constructor
    · intro h
      unfold avatarUploadGate at h
      split at h
      · exact absurd h (by simp)
      · split at h
        · exact absurd h (by simp)
        · refine ⟨by simpa using ‹¬(!avatarFileFilter name mime) = true›, by omega⟩
    · intro ⟨h1, h2⟩
      simp [avatarUploadGate, h1, Nat.not_lt.mpr h2]
  · intro h
    simp [avatarUploadRoute, avatarUploadGate, h]

/-- Witness for avatar_filter_amended: a png name with a non-image content
type is rejected by the gate with the 400 message and the route stores
nothing. -/
theorem avatar_filter_amended_witness :
    avatarUploadGate "photo.png" "text/plain" 100 = .rejected "Only image files are allowed" ∧
    avatarUploadRoute (some oldAvatarUser)
      (some { originalname := "photo.png", mimetype := "text/plain", size := 100,
              filename := "f.png", path := "/backend/uploads/avatars/f.png" }) =
      (some oldAvatarUser, [], .badRequest "Only image files are allowed") :=
  ⟨(avatar_filter_amended "photo.png" "text/plain" 100 (some oldAvatarUser)
      { originalname := "photo.png", mimetype := "text/plain", size := 100,
        filename := "f.png", path := "/backend/uploads/avatars/f.png" }).2.1 (by decide),
   (avatar_filter_amended "photo.png" "text/plain" 100 (some oldAvatarUser)
      { originalname := "photo.png", mimetype := "text/plain", size := 100,
        filename := "f.png", path := "/backend/uploads/avatars/f.png" }).2.2.2.1 (by decide)⟩

/-- Claim C8 counterexample: the owner's download of a document whose
locator is a local path is answered with 404 File not found — the route
has no local byte-stream branch at all and never consults local storage,
so no local locator ever resolves to a stream. -/
theorem download_local_cex :
    downloadDocument [docLocal] 7 1 = .fileNotFound ∧
    downloadStatus (downloadDocument [docLocal] 7 1) = 404 ∧
    jsStartsWith docLocal.filePath "http" = false := by
  decide

/-- Claim C8 (amended): for the record's owner, a truthy locator starting
with "http" resolves to a redirect to the remote URL with the first
'/upload/' replaced by '/upload/fl_attachment/'; every other locator —
local paths included, whether or not the blob exists — is answered with
the 404 File not found, which is distinct from the Document not found of
a missing record; no local byte stream is ever produced. -/
theorem download_resolution_amended (db : List DocumentRecord) (u i : Nat) :
    (db.find? (fun d => d.id == i && d.userId == u) = none →
      downloadDocument db u i = .recordNotFound) ∧
    (∀ doc, db.find? (fun d => d.id == i && d.userId == u) = some doc →
      ((!doc.filePath.isEmpty && jsStartsWith doc.filePath "http") = true →
        downloadDocument db u i =
          .redirect (replaceFirst doc.filePath "/upload/" "/upload/fl_attachment/")) ∧
      ((!doc.filePath.isEmpty && jsStartsWith doc.filePath "http") = false →
        downloadDocument db u i = .fileNotFound)) ∧
    downloadMessage .fileNotFound ≠ downloadMessage .recordNotFound := by
  refine ⟨?_, ?_, by decide⟩
  · intro h
    simp [downloadDocument, h]
  · intro doc hf
    constructor <;> intro hc <;> simp [downloadDocument, hf, hc]

/-- Witness for download_resolution_amended: the remote document redirects
with the attachment hint, the local document is answered File not found. -/
theorem download_resolution_amended_witness :
    downloadDocument [docRemote] 1 1 =
      .redirect (replaceFirst docRemote.filePath "/upload/" "/upload/fl_attachment/") ∧
    downloadDocument [docLocal] 7 1 = .fileNotFound :=
  ⟨((download_resolution_amended [docRemote] 1 1).2.1 docRemote (by decide)).1 (by decide),
   ((download_resolution_amended [docLocal] 7 1).2.1 docLocal (by decide)).2 (by decide)⟩

/-- Claim C9 counterexample: re-uploading an avatar for a user who already
has one performs the old-blob deletion attempt at trace position 1,
before the metadata save at position 2 — not afterward as claimed; the
new blob is stored first and the locator is indeed replaced. -/
theorem avatar_replace_order_cex :
    (avatarUploadRoute (some oldAvatarUser) (some newAvatarFile)).2.1 =
      [.storeBlob "1700-42.png",
       .deleteBlob "password-manager/avatars/old",
       .saveUser (some "/uploads/avatars/1700-42.png")] ∧
    ((avatarUploadRoute (some oldAvatarUser) (some newAvatarFile)).2.1)[1]? =
      some (.deleteBlob "password-manager/avatars/old") ∧
    ((avatarUploadRoute (some oldAvatarUser) (some newAvatarFile)).2.1)[2]? =
      some (.saveUser (some "/uploads/avatars/1700-42.png")) ∧
    (avatarUploadRoute (some oldAvatarUser) (some newAvatarFile)).1 =
      some { id := 7, avatar := some "/uploads/avatars/1700-42.png" } := by
  decide

/-- Claim C9 (amended): on an accepted local re-upload by a user whose
stored avatar locator is truthy with a truthy extracted public id, the
route stores the new blob, then attempts the best-effort deletion of the
old blob, and only after that saves the user with the old locator
replaced by the new one, answering 200 with the new locator; the
deletion outcome cannot affect the response. -/
theorem avatar_replace_amended (u : UserRec) (f : ReqFile) (old pid : String)
    (hold : u.avatar = some old) (holdne : old.isEmpty = false)
    (hpid : extractPublicId old = some pid) (hpidne : pid.isEmpty = false)
    (hfilter : avatarFileFilter f.originalname f.mimetype = true)
    (hsize : f.size ≤ 5 * 1024 * 1024)
    (hlocal : jsStartsWith f.path "http" = false) :
    avatarUploadRoute (some u) (some f) =
      (some { u with avatar := some ("/uploads/avatars/" ++ f.filename) },
       [.storeBlob f.filename,
        .deleteBlob ("password-manager/avatars/" ++ pid),
        .saveUser (some ("/uploads/avatars/" ++ f.filename))],
       .ok ("/uploads/avatars/" ++ f.filename)) := by
  simp [avatarUploadRoute, avatarUploadGate, hfilter, Nat.not_lt.mpr hsize, hold,
    jsTruthyStr, holdne, hpid, hpidne, hlocal]

/-- Witness for avatar_replace_amended at the sample user and file. -/
theorem avatar_replace_amended_witness :
    avatarUploadRoute (some oldAvatarUser) (some newAvatarFile) =
      (some { oldAvatarUser with avatar := some ("/uploads/avatars/" ++ newAvatarFile.filename) },
       [.storeBlob newAvatarFile.filename,
        .deleteBlob ("password-manager/avatars/" ++ "old"),
        .saveUser (some ("/uploads/avatars/" ++ newAvatarFile.filename))],
       .ok ("/uploads/avatars/" ++ newAvatarFile.filename)) :=
  avatar_replace_amended oldAvatarUser newAvatarFile "/uploads/avatars/old.png" "old"
    rfl (by decide) (by decide) (by decide) (by decide) (by decide) (by decide)

/-- Claim C10: for every existing user (whose stored avatar locator, when
present, is a non-empty string, as every locator the routes ever store
is), the avatar delete route answers the same success result whether or
not an avatar is set; when none is set it changes neither the user nor
the filesystem; the stored locator is null afterwards in every case; and
running the route twice from any state equals running it once. -/
theorem avatar_delete_idempotent (u : UserRec) (fs : List String)
    (hwf : ∀ s, u.avatar = some s → s.isEmpty = false) :
    ((avatarDeleteRoute (some u) fs).2.2 = .ok) ∧
    ((avatarDeleteRoute (some u) fs).1 = some { u with avatar := none }) ∧
    (u.avatar = none → avatarDeleteRoute (some u) fs = (some u, fs, .ok)) ∧
    (avatarDeleteRoute (avatarDeleteRoute (some u) fs).1
        (avatarDeleteRoute (some u) fs).2.1 =
      ((avatarDeleteRoute (some u) fs).1,
       (avatarDeleteRoute (some u) fs).2.1, .ok)) := by
  obtain ⟨uid, av⟩ := u
  cases av with
  | none => exact ⟨rfl, rfl, fun _ => rfl, rfl⟩
  | some s =>
    have hs : s.isEmpty = false := hwf s rfl
    refine ⟨?_, ?_, ?_, ?_⟩
    · simp [avatarDeleteRoute, jsTruthyStr, hs]
    · simp [avatarDeleteRoute, jsTruthyStr, hs]
    · intro h
      exact absurd h (by simp)
    · simp [avatarDeleteRoute, jsTruthyStr, hs]

/-- Witness for avatar_delete_idempotent at a user with a stored avatar. -/
theorem avatar_delete_idempotent_witness :
    ((avatarDeleteRoute (some oldAvatarUser) ["uploads/avatars/old.png"]).2.2 = .ok) ∧
    ((avatarDeleteRoute (some oldAvatarUser) ["uploads/avatars/old.png"]).1 =
      some { oldAvatarUser with avatar := none }) ∧
    (oldAvatarUser.avatar = none →
      avatarDeleteRoute (some oldAvatarUser) ["uploads/avatars/old.png"] =
        (some oldAvatarUser, ["uploads/avatars/old.png"], .ok)) ∧
    (avatarDeleteRoute
        (avatarDeleteRoute (some oldAvatarUser) ["uploads/avatars/old.png"]).1
        (avatarDeleteRoute (some oldAvatarUser) ["uploads/avatars/old.png"]).2.1 =
      ((avatarDeleteRoute (some oldAvatarUser) ["uploads/avatars/old.png"]).1,
       (avatarDeleteRoute (some oldAvatarUser) ["uploads/avatars/old.png"]).2.1, .ok)) :=
  avatar_delete_idempotent oldAvatarUser ["uploads/avatars/old.png"]
    (by
      intro s h
      simp only [oldAvatarUser, Option.some.injEq] at h
      subst h
      decide)
